import Mathlib

/-!
Verification of the attachment-content pipeline of the outlook-mcp
repository: content classification (isTextContent / isExcelFile /
isOfficeDocument), the spreadsheet and office-document parsers, the
overflow manager (shouldSaveToFile / saveFileToDisc / handleLargeContent)
and the size-guard at the end of downloadAttachmentTool.

The JavaScript source is shallowly embedded: strings are Lean Strings
(JavaScript string lengths are UTF-16 code-unit counts; for the
basic-multilingual-plane inputs exercised here they coincide with
character counts), byte buffers are lists of naturals, and the external
collaborators (the xlsx reader and the officeparser callback) are
oracle parameters.
-/

set_option autoImplicit false

namespace OutlookMcp

/-! ### JavaScript string primitives -/

/-- JavaScript truthiness for a nullable string: null/undefined and the
empty string are falsy. -/
def truthyS : Option String → Bool
  | none => false
  | some s => s != ""

/-- Model of `String.prototype.toLowerCase` restricted to ASCII (the MIME types and
extensions compared in the source are all ASCII). -/
def jsLowerChar (c : Char) : Char :=
  if 'A' ≤ c ∧ c ≤ 'Z' then Char.ofNat (c.toNat + 32) else c

def jsToLower (s : String) : String :=
  String.mk (s.data.map jsLowerChar)

/-- Model of `haystack.startsWith(needle)` on code points. -/
def strStartsWith (s pfx : String) : Bool :=
  pfx.data.isPrefixOf s.data

/-- Index of the last '.' in a character list, as in
`String.prototype.lastIndexOf('.')` (`none` for -1). -/
def lastDotIdx (l : List Char) : Option Nat :=
  match l.reverse.findIdx? (fun c => c == '.') with
  | some j => some (l.length - 1 - j)
  | none => none

/-- Model of `filename.toLowerCase().substring(filename.lastIndexOf('.'))`:
when no dot exists, `substring(-1)` is clamped to 0 and yields the whole
(lowercased) string. -/
def extOf (filename : String) : String :=
  match lastDotIdx filename.data with
  | some i => String.mk ((jsToLower filename).data.drop i)
  | none => jsToLower filename

/-- The ASCII byte sequence of a marker string. -/
def asciiBytes (s : String) : List Nat :=
  s.data.map Char.toNat

def isPrefixList (pat l : List Nat) : Bool :=
  pat.isPrefixOf l

/-- Model of `sample.includes(pat)` at byte level. -/
def containsSeq (pat : List Nat) : List Nat → Bool
  | [] => pat.isEmpty
  | b :: rest => isPrefixList pat (b :: rest) || containsSeq pat rest

/-! ### Base64 decoding (`Buffer.from(s, 'base64')`)

Node's decoder ignores characters outside the Base64 alphabet and
assembles the remaining sextets: 4 sextets give 3 bytes, a trailing
group of 3 gives 2 bytes, of 2 gives 1 byte, of 1 gives nothing. -/

def b64Val (c : Char) : Option Nat :=
  if 'A' ≤ c ∧ c ≤ 'Z' then some (c.toNat - 65)
  else if 'a' ≤ c ∧ c ≤ 'z' then some (c.toNat - 97 + 26)
  else if '0' ≤ c ∧ c ≤ '9' then some (c.toNat - 48 + 52)
  else if c = '+' then some 62
  else if c = '/' then some 63
  else none

def decodeGroups : List Nat → List Nat
  | a :: b :: c :: d :: rest =>
    (a * 4 + b / 16) :: ((b % 16) * 16 + c / 4) :: ((c % 4) * 64 + d) :: decodeGroups rest
  | [a, b] => [a * 4 + b / 16]
  | [a, b, c] => [a * 4 + b / 16, (b % 16) * 16 + c / 4]
  | _ => []

def base64Decode (s : String) : List Nat :=
  decodeGroups (s.data.filterMap b64Val)

/-! ### UTF-8 encoding and best-effort decoding
(`Buffer.from(s, 'utf8')` and `buffer.toString('utf8')`) -/

def utf8EncodeChar (c : Char) : List Nat :=
  let n := c.toNat
  if n < 128 then [n]
  else if n < 2048 then [192 + n / 64, 128 + n % 64]
  else if n < 65536 then [224 + n / 4096, 128 + (n / 64) % 64, 128 + n % 64]
  else [240 + n / 262144, 128 + (n / 4096) % 64, 128 + (n / 64) % 64, 128 + n % 64]

def utf8Encode (s : String) : List Nat :=
  (s.data.map utf8EncodeChar).flatten

def contByte (b : Nat) : Bool :=
  decide (128 ≤ b) && decide (b < 192)

def replChar : Char := Char.ofNat 65533

/-- Best-effort UTF-8 decoder: well-formed sequences decode exactly;
malformed bytes become U+FFFD (Node emits replacement characters too,
with slightly different resynchronisation on some malformed tails;
no property proved here inspects decoded malformed input). -/
def utf8DecodeList : List Nat → List Char
  | [] => []
  | b :: rest =>
    if b < 128 then Char.ofNat b :: utf8DecodeList rest
    else if 194 ≤ b ∧ b ≤ 223 then
      match rest with
      | b2 :: rest2 =>
        if contByte b2 then
          Char.ofNat ((b - 192) * 64 + (b2 - 128)) :: utf8DecodeList rest2
        else replChar :: utf8DecodeList (b2 :: rest2)
      | [] => [replChar]
    else if 224 ≤ b ∧ b ≤ 239 then
      match rest with
      | b2 :: b3 :: rest3 =>
        if contByte b2 && contByte b3 then
          Char.ofNat ((b - 224) * 4096 + (b2 - 128) * 64 + (b3 - 128)) :: utf8DecodeList rest3
        else replChar :: utf8DecodeList (b2 :: b3 :: rest3)
      | _ => [replChar]
    else if 240 ≤ b ∧ b ≤ 244 then
      match rest with
      | b2 :: b3 :: b4 :: rest4 =>
        if contByte b2 && contByte b3 && contByte b4 then
          Char.ofNat ((b - 240) * 262144 + (b2 - 128) * 4096 + (b3 - 128) * 64 + (b4 - 128))
            :: utf8DecodeList rest4
        else replChar :: utf8DecodeList (b2 :: b3 :: b4 :: rest4)
      | _ => [replChar]
    else replChar :: utf8DecodeList rest
termination_by l => l.length
decreasing_by all_goals (simp only [List.length_cons]; omega)

def utf8Decode (bytes : List Nat) : String :=
  String.mk (utf8DecodeList bytes)

/-! ### formatFileSize

`formatFileSize` in the source uses floating-point `Math.log` and
`toFixed(2)`; it is modelled here with exact natural arithmetic
(`Nat.log 1024` and round-half-up to two decimals, trailing zeros
stripped as `parseFloat` does). No claim depends on the digits. -/

def stripDecimal (centi : Nat) : String :=
  let intPart := centi / 100
  let frac := centi % 100
  if frac = 0 then toString intPart
  else if frac % 10 = 0 then toString intPart ++ "." ++ toString (frac / 10)
  else if frac < 10 then toString intPart ++ ".0" ++ toString frac
  else toString intPart ++ "." ++ toString frac

def formatFileSize (bytes : Nat) : String :=
  if bytes = 0 then "0 Bytes"
  else
    let sizes := ["Bytes", "KB", "MB", "GB"]
    let i := Nat.log 1024 bytes
    let p := Nat.pow 1024 i
    let centi := (bytes * 200 + p) / (2 * p)
    stripDecimal centi ++ " " ++ sizes.getD i "undefined"

/-! ### Content classifier (isTextContent / isExcelFile / isOfficeDocument) -/

def textTypes : List String :=
  ["text/", "application/json", "application/xml", "application/javascript",
   "application/typescript", "application/x-python", "application/x-sh",
   "application/sql"]

def textExtensions : List String :=
  [".txt", ".md", ".csv", ".log", ".ini", ".cfg", ".conf",
   ".html", ".htm", ".xml", ".json", ".js", ".ts", ".py",
   ".sh", ".bash", ".sql", ".css", ".scss", ".less",
   ".yaml", ".yml", ".toml", ".properties", ".env"]

/-- The content-sniffing heuristic over the first 200 decoded bytes:
`<!DOCTYPE html>`, `<html>`, `<?xml` anywhere, or a leading JSON brace
(byte 123) or bracket (byte 91). -/
def sniffLooksText (bytes : List Nat) : Bool :=
  let sample := bytes.take 200
  containsSeq (asciiBytes "<!DOCTYPE html>") sample ||
  containsSeq (asciiBytes "<html>") sample ||
  containsSeq (asciiBytes "<?xml") sample ||
  (match sample with
   | b :: _ => b == 123 || b == 91
   | [] => false)

def isTextContent (contentType filename contentBytes : Option String) : Bool :=
  let byType :=
    match contentType with
    | some ct => ct != "" && textTypes.any (fun t => strStartsWith (jsToLower ct) t)
    | none => false
  if byType then true
  else
    let byExt :=
      match filename with
      | some f => f != "" && textExtensions.contains (extOf f)
      | none => false
    if byExt then true
    else
      let ctBlank :=
        match contentType with
        | some ct => ct == "" || ct.trim == ""
        | none => true
      match contentBytes with
      | some cb => if ctBlank && cb != "" then sniffLooksText (base64Decode cb) else false
      | none => false

def excelMimeTypes : List String :=
  ["application/vnd.openxmlformats-officedocument.spreadsheetml.sheet",
   "application/vnd.ms-excel",
   "application/vnd.openxmlformats-officedocument.spreadsheetml.template",
   "application/vnd.ms-excel.sheet.macroEnabled.12",
   "application/vnd.ms-excel.template.macroEnabled.12",
   "application/vnd.ms-excel.addin.macroEnabled.12",
   "application/vnd.ms-excel.sheet.binary.macroEnabled.12"]

def excelExtensions : List String :=
  [".xlsx", ".xls", ".xlsm", ".xltx", ".xltm", ".xlam", ".xlsb"]

def isExcelFile (contentType filename : Option String) : Bool :=
  let byMime :=
    match contentType with
    | some ct => ct != "" && excelMimeTypes.contains (jsToLower ct)
    | none => false
  if byMime then true
  else
    match filename with
    | some f => if f != "" then excelExtensions.contains (extOf f) else false
    | none => false

def officeMimeTypes : List String :=
  ["application/pdf",
   "application/vnd.openxmlformats-officedocument.wordprocessingml.document",
   "application/msword",
   "application/vnd.openxmlformats-officedocument.wordprocessingml.template",
   "application/vnd.ms-word.document.macroEnabled.12",
   "application/vnd.ms-word.template.macroEnabled.12",
   "application/vnd.openxmlformats-officedocument.presentationml.presentation",
   "application/vnd.ms-powerpoint",
   "application/vnd.openxmlformats-officedocument.presentationml.template",
   "application/vnd.openxmlformats-officedocument.presentationml.slideshow",
   "application/vnd.ms-powerpoint.addin.macroEnabled.12",
   "application/vnd.ms-powerpoint.presentation.macroEnabled.12",
   "application/vnd.ms-powerpoint.template.macroEnabled.12",
   "application/vnd.ms-powerpoint.slideshow.macroEnabled.12",
   "application/vnd.oasis.opendocument.text",
   "application/vnd.oasis.opendocument.presentation",
   "application/vnd.oasis.opendocument.spreadsheet",
   "application/rtf",
   "text/rtf"]

def officeExtensions : List String :=
  [".pdf",
   ".doc", ".docx", ".docm", ".dotx", ".dotm",
   ".ppt", ".pptx", ".pptm", ".potx", ".potm", ".ppsx", ".ppsm", ".ppam",
   ".odt", ".odp", ".ods",
   ".rtf"]

def isOfficeDocument (contentType filename : Option String) : Bool :=
  let byMime :=
    match contentType with
    | some ct => ct != "" && officeMimeTypes.contains (jsToLower ct)
    | none => false
  if byMime then true
  else
    match filename with
    | some f => if f != "" then officeExtensions.contains (extOf f) else false
    | none => false

/-- The categories assigned by the dispatch chain in
`decodeAttachmentContent`. -/
inductive ContentCategory
  | text
  | excel
  | office
  | binary
deriving DecidableEq, Repr

/-- The classification order of `decodeAttachmentContent`:
`isTextContent` first, then `isExcelFile`, then `isOfficeDocument`,
defaulting to binary. -/
def classify (contentType filename contentBytes : Option String) : ContentCategory :=
  if isTextContent contentType filename contentBytes then .text
  else if isExcelFile contentType filename then .excel
  else if isOfficeDocument contentType filename then .office
  else .binary

/-! ### Spreadsheet parser (parseExcelContent)

`XLSX.read` is an external library; it is an oracle parameter returning
either a workbook or a thrown error message. A worksheet is modelled by
its name, its column count (from `decode_range` of `!ref`) and the cell
matrix spanned by `!ref` (so the range's row count is `rows.length`;
`sheet_to_json` with `header: 1` and a row-limited range returns exactly
the first `rowsToProcess` rows, blank rows included). -/

structure JsSheet where
  name : String
  cols : Nat
  rows : List (List String)
deriving DecidableEq, Repr

structure ExcelSheetInfo where
  name : String
  rows : Nat
  columns : Nat
  data : List (List String)
  truncated : Bool
  displayedRows : Nat
  note : Option String
deriving DecidableEq, Repr

/-- The two object shapes returned by `parseExcelContent`: the parsed
workbook (`type: 'excel'`) or the typed error (`type: 'excel_error'`).
Returning `error` rather than throwing models the `catch` block. -/
inductive ExcelResult
  | ok (filename : Option String) (sheets : List ExcelSheetInfo)
       (totalSheets : Nat) (sheetNames : List String) (summaryNote : Option String)
  | error (err note : String)
deriving DecidableEq, Repr

def ExcelResult.isOk : ExcelResult → Bool
  | .ok _ _ _ _ _ => true
  | .error _ _ => false

def sheetTruncNote (maxRowsPerSheet totalRows : Nat) : String :=
  "Sheet truncated to " ++ toString maxRowsPerSheet ++ " rows (total: " ++ toString totalRows ++ ")"

def sheetsSummaryNote (maxSheets total : Nat) : String :=
  "Only first " ++ toString maxSheets ++ " sheets displayed (total: " ++ toString total ++ ")"

def processSheet (maxRowsPerSheet : Nat) (ws : JsSheet) : ExcelSheetInfo :=
  let totalRows := ws.rows.length
  let rowsToProcess := min totalRows maxRowsPerSheet
  let jsonData := ws.rows.take rowsToProcess
  { name := ws.name
    rows := totalRows
    columns := ws.cols
    data := jsonData
    truncated := decide (rowsToProcess < totalRows)
    displayedRows := jsonData.length
    note := if rowsToProcess < totalRows then some (sheetTruncNote maxRowsPerSheet totalRows) else none }

def parseExcelContent (xlsxRead : String → Except String (List JsSheet))
    (contentBytes : String) (filename : Option String)
    (maxSheets maxRowsPerSheet : Nat) : ExcelResult :=
  match xlsxRead contentBytes with
  | .error msg =>
    .error ("Failed to parse Excel file: " ++ msg)
      "File may be corrupted or in an unsupported Excel format"
  | .ok sheetList =>
    .ok filename
      ((sheetList.take maxSheets).map (processSheet maxRowsPerSheet))
      sheetList.length
      (sheetList.map (fun ws => ws.name))
      (if sheetList.length > maxSheets then some (sheetsSummaryNote maxSheets sheetList.length) else none)

/-! ### Office-document parser (parseOfficeDocument)

`officeParser.parseOffice` signals completion through a callback
`(data, err)`; it is modelled as an oracle from the decoded buffer to
either an error (err truthy) or the extracted data (`null` data becomes
the empty string through `data || ''`). The surrounding try/catch and
the error callback both produce the `office_error` shape, so the
function is total: no exception escapes. -/

inductive OfficeResult
  | ok (filename : Option String) (text : String) (extractedLength : Nat)
       (truncated : Bool) (truncatedLength : Option Nat) (note : Option String)
       (originalSize : Nat) (hasContent : Bool)
  | error (err note : String)
deriving DecidableEq, Repr

def officeTruncNote (maxTextLength totalLength : Nat) : String :=
  "Text truncated to " ++ toString maxTextLength ++ " characters (total: " ++ toString totalLength ++ ")"

/-- Model of `extractedText.substring(0, maxTextLength)` on code points. -/
def strTakeChars (s : String) (n : Nat) : String :=
  String.mk (s.data.take n)

def parseOfficeDocument (parseOffice : List Nat → Except String (Option String))
    (contentBytes : String) (filename : Option String) (maxTextLength : Nat) : OfficeResult :=
  let buffer := base64Decode contentBytes
  match parseOffice buffer with
  | .error err =>
    .error ("Failed to parse office document: " ++ err)
      "File may be corrupted, password-protected, or in an unsupported format"
  | .ok data =>
    let extractedText := data.getD ""
    let textLength := extractedText.length
    let truncated := decide (textLength > maxTextLength)
    let displayText :=
      if textLength > maxTextLength then strTakeChars extractedText maxTextLength ++ "..."
      else extractedText
    .ok filename displayText textLength truncated
      (if truncated then some maxTextLength else none)
      (if truncated then some (officeTruncNote maxTextLength textLength) else none)
      buffer.length
      (decide (textLength > 0))

/-! ### Overflow manager (fileOutput.js)

The filesystem is an association list from paths to byte lists; writes
prepend, reads find the most recent entry. `Date.now()` and the random
suffix are parameters of the model. -/

abbrev FileSystem := List (String × List Nat)

def fsWrite (fs : FileSystem) (p : String) (b : List Nat) : FileSystem :=
  (p, b) :: fs

def fsRead (fs : FileSystem) (p : String) : Option (List Nat) :=
  (fs.find? (fun e => e.1 == p)).map (fun e => e.2)

/-- Model of `path.extname`: the suffix from the last dot, empty when there is no
dot or the name starts with its only dot. -/
def pathExtname (name : String) : String :=
  match lastDotIdx name.data with
  | some i => if i = 0 then "" else String.mk (name.data.drop i)
  | none => ""

def pathBasenameNoExt (name : String) : String :=
  match lastDotIdx name.data with
  | some i => if i = 0 then name else String.mk (name.data.take i)
  | none => name

/-- Model of `generateUniqueFilename(originalName, prefix)` with the millisecond
timestamp and random suffix passed explicitly. -/
def generateUniqueFilename (originalName : Option String) (pfix : String)
    (timestamp : Nat) (random : String) : String :=
  match originalName with
  | some name =>
    if name != "" then
      pfix ++ "_" ++ pathBasenameNoExt name ++ "_" ++ toString timestamp ++ "_" ++ random
        ++ pathExtname name
    else pfix ++ "_file_" ++ toString timestamp ++ "_" ++ random
  | none => pfix ++ "_file_" ++ toString timestamp ++ "_" ++ random

/-- Content handed to the overflow manager: the callers in this
repository pass either a string or a Buffer (the third
`JSON.stringify` estimate branch of `shouldSaveToFile` is for other
objects and is not exercised by these claims). -/
inductive JsContent
  | str (s : String)
  | buf (b : List Nat)
deriving DecidableEq, Repr

/-- Model of `Buffer.byteLength(content, 'utf8')` for strings, `content.length`
for buffers. -/
def jsByteLength : JsContent → Nat
  | .str s => (utf8Encode s).length
  | .buf b => b.length

def shouldSaveToFile (content : JsContent) (maxSize : Nat) : Bool :=
  decide (jsByteLength content > maxSize)

/-- The buffer written by `saveFileToDisc`: Base64 strings are decoded,
utf8/text strings are UTF-8 encoded, anything else falls through to
`Buffer.from(content)` (UTF-8 for strings, identity for buffers). -/
def encodeBuffer (content : JsContent) (encoding : String) : List Nat :=
  match content with
  | .buf b => b
  | .str s => if encoding == "base64" then base64Decode s else utf8Encode s

structure FileInfo where
  success : Bool
  filePath : String
  filename : String
  originalFilename : Option String
  size : Nat
  originalSize : Nat
  mimeType : Option String
  encoding : String
deriving DecidableEq, Repr

structure SaveOutcome where
  fs : FileSystem
  info : FileInfo
deriving Repr

/-- Model of `saveFileToDisc` with an always-writable disk (the catch branch that
returns `success: false` is modelled separately where a claim needs it,
via the save outcome parameter of the response finaliser). `stats.size`
is obtained by reading the just-written file back. `originalSize`
mirrors `originalSize || stats.size` (0 is falsy in JavaScript). -/
def saveFileToDisc (fs : FileSystem) (workDir : String) (timestamp : Nat) (random : String)
    (content : JsContent) (filename : Option String) (encoding : String)
    (mimeType : Option String) (originalSize : Option Nat) : SaveOutcome :=
  let uniqueFilename := generateUniqueFilename filename "outlook" timestamp random
  let filePath := workDir ++ "/" ++ uniqueFilename
  let buffer := encodeBuffer content encoding
  let fs2 := fsWrite fs filePath buffer
  let statSize := ((fsRead fs2 filePath).getD []).length
  { fs := fs2
    info :=
      { success := true
        filePath := filePath
        filename := uniqueFilename
        originalFilename := filename
        size := statSize
        originalSize :=
          match originalSize with
          | some n => if n = 0 then statSize else n
          | none => statSize
        mimeType := mimeType
        encoding := encoding } }

/-- The two object shapes returned by `handleLargeContent`:
`{savedToFile: true, ...fileInfo}` or
`{savedToFile: false, content, size, encoding}`. -/
inductive LargeContentResult
  | spilled (info : FileInfo)
  | inline (content : JsContent) (size : Nat) (encoding : String)
deriving DecidableEq, Repr

def LargeContentResult.savedToFile : LargeContentResult → Bool
  | .spilled _ => true
  | .inline _ _ _ => false

def handleLargeContent (fs : FileSystem) (workDir : String) (timestamp : Nat) (random : String)
    (content : JsContent) (filename : Option String) (maxSize : Nat) (encoding : String)
    (mimeType : Option String) (forceFile : Bool) : FileSystem × LargeContentResult :=
  if forceFile || shouldSaveToFile content maxSize then
    let so := saveFileToDisc fs workDir timestamp random content filename encoding mimeType none
    (so.fs, .spilled so.info)
  else
    (fs, .inline content (jsByteLength content) encoding)

/-! ### decodeAttachmentContent -/

inductive DecodedPayload
  | str (s : String)
  | excel (r : ExcelResult)
  | office (r : OfficeResult)
deriving DecidableEq, Repr

structure DecodedContent where
  type : String
  content : DecodedPayload
  contentBytes : Option String
  size : Option Nat
  encoding : String
  note : Option String
  error : Option String
deriving DecidableEq, Repr

/-- Model of `decodeAttachmentContent(contentBytes, contentType, filename,
maxTextSize = 1024*1024)`; the xlsx and officeparser libraries are
oracle parameters. The surrounding try/catch (the `type: 'error'`
shape) is unreachable in the model because every step is total. -/
def decodeAttachmentContent (xlsxRead : String → Except String (List JsSheet))
    (parseOffice : List Nat → Except String (Option String))
    (contentBytes : String) (contentType filename : Option String)
    (maxTextSize : Nat) : DecodedContent :=
  let buffer := base64Decode contentBytes
  let decodedSize := buffer.length
  if isTextContent contentType filename (some contentBytes) then
    if decodedSize ≤ maxTextSize then
      { type := "text"
        content := .str (utf8Decode buffer)
        contentBytes := none
        size := some decodedSize
        encoding := "utf8"
        note := none
        error := none }
    else
      { type := "text"
        content := .str ("[Text file too large to display: " ++ formatFileSize decodedSize ++ "]")
        contentBytes := some contentBytes
        size := some decodedSize
        encoding := "base64_preserved"
        note := some "File exceeds display limit, use contentBytes for full content"
        error := none }
  else if isExcelFile contentType filename then
    { type := "excel"
      content := .excel (parseExcelContent xlsxRead contentBytes filename 10 1000)
      contentBytes := some contentBytes
      size := some decodedSize
      encoding := "parsed"
      note := some "Excel file parsed and data extracted. Use contentBytes for raw file access."
      error := none }
  else if isOfficeDocument contentType filename then
    { type := "office"
      content := .office (parseOfficeDocument parseOffice contentBytes filename 50000)
      contentBytes := some contentBytes
      size := some decodedSize
      encoding := "parsed"
      note := some "Office document parsed and text extracted. Use contentBytes for raw file access."
      error := none }
  else
    { type := "binary"
      content := .str ("[Binary file: " ++ (match contentType with
        | some ct => if ct != "" then ct else "unknown type"
        | none => "unknown type") ++ ", " ++ formatFileSize decodedSize ++ "]")
      contentBytes := some contentBytes
      size := some decodedSize
      encoding := "base64"
      note := some "Binary file preserved as Base64, decode with Buffer.from(contentBytes, \"base64\") if needed"
      error := none }

/-! ### The size guard at the end of downloadAttachmentTool

After assembling `attachmentInfo`, the tool serialises it
(`responseText = JSON.stringify(attachmentInfo, null, 2)`) and returns
one of three responses. The serialised text, whether the envelope holds
raw `contentBytes`, the serialised length of a parsed-content object
(when `attachmentInfo.content` is an object) and the outcome of
`saveBase64File` are the inputs of that decision and are passed to the
model explicitly. -/

def maxMcpResponseSize : Nat := 1048576

structure FinalizeInput where
  responseText : String
  hasContentBytes : Bool
  parsedContentJsonLen : Option Nat
  saveOutcome : Except String FileInfo
deriving Repr

inductive FinalizedResponse
  | inline (text : String)
  | savedToFile (info : FileInfo) (parsedContentDropped : Bool)
  | truncatedSummary (contentSize : Nat) (fileSaveError : String)
deriving Repr

/-- Lines 546-631 of the orchestrator: the guard fires only when the
serialised text exceeds the 1 MiB limit AND the envelope carries raw
`contentBytes`; otherwise `responseText` is returned as-is. Inside the
guard, a successful save yields the file-reference response (dropping
the parsed content too when its own serialisation exceeds half the
budget), and a failed save yields the truncated summary. -/
def finalizeAttachmentResponse (inp : FinalizeInput) : FinalizedResponse :=
  if inp.responseText.length > maxMcpResponseSize && inp.hasContentBytes then
    match inp.saveOutcome with
    | .ok fileInfo =>
      let dropParsed :=
        match inp.parsedContentJsonLen with
        | some n => decide (n > maxMcpResponseSize / 2)
        | none => false
      .savedToFile fileInfo dropParsed
    | .error e => .truncatedSummary inp.responseText.length e
  else
    .inline inp.responseText

/-! ### Helper lemmas -/

theorem length_mk (l : List Char) : (String.mk l).length = l.length := rfl

theorem utf8Encode_mk (l : List Char) :
    utf8Encode (String.mk l) = (l.map utf8EncodeChar).flatten := rfl

theorem base64Decode_mk (l : List Char) :
    base64Decode (String.mk l) = decodeGroups (l.filterMap b64Val) := rfl

theorem filterMap_b64_replicateA (n : Nat) :
    (List.replicate n 'A').filterMap b64Val = List.replicate n 0 := by
  induction n with
  | zero => rfl
  | succ n ih =>
    have hA : b64Val 'A' = some 0 := by decide
    simp [List.replicate_succ, List.filterMap_cons, hA, ih]

theorem decodeGroups_replicate_zero (k : Nat) :
    decodeGroups (List.replicate (4 * k) 0) = List.replicate (3 * k) 0 := by
  induction k with
  | zero => rfl
  | succ k ih =>
    have h4 : 4 * (k + 1) = 4 + 4 * k := by ring
    have h3 : 3 * (k + 1) = 3 + 3 * k := by ring
    rw [h4, h3, List.replicate_add, List.replicate_add]
    simp only [List.replicate_succ, List.replicate_zero, List.cons_append, List.nil_append]
    simp [decodeGroups, ih]

theorem base64Decode_replicateA_length (k : Nat) :
    (base64Decode (String.mk (List.replicate (4 * k) 'A'))).length = 3 * k := by
  rw [base64Decode_mk, filterMap_b64_replicateA, decodeGroups_replicate_zero,
    List.length_replicate]

theorem utf8Encode_replicateA_length (n : Nat) :
    (utf8Encode (String.mk (List.replicate n 'A'))).length = n := by
  rw [utf8Encode_mk]
  induction n with
  | zero => rfl
  | succ n ih =>
    have hA : utf8EncodeChar 'A' = [65] := by decide
    simp only [List.replicate_succ, List.map_cons, hA, List.flatten_cons,
      List.length_append, List.length_cons, List.length_nil]
    omega

theorem jsByteLength_buf (b : List Nat) : jsByteLength (JsContent.buf b) = b.length := rfl

theorem string_data_append (s t : String) : (s ++ t).data = s.data ++ t.data := by
  cases s; cases t; rfl

theorem prefixed_ne_empty (s t : String) (hs : s.data ≠ []) : s ++ t ≠ "" := by
  intro h
  have hd := congrArg String.data h
  rw [string_data_append] at hd
  exact hs (List.append_eq_nil.mp hd).1

/-! ### Claims about the classifier -/

/-- Claim C2, counterexample: an attachment with declared MIME type
`application/vnd.ms-excel` and filename `data.csv` is classified text,
not spreadsheet — `decodeAttachmentContent` tries `isTextContent` before
`isExcelFile`, and the `.csv` extension is in the textual extension set. -/
theorem classify_excelMime_csvName_is_text :
    classify (some "application/vnd.ms-excel") (some "data.csv") (some "") = ContentCategory.text
    ∧ classify (some "application/vnd.ms-excel") (some "data.csv") (some "") ≠ ContentCategory.excel := by
  exact ⟨by decide, by decide⟩

/-- Claim C2 as amended: the textual rules are checked before the
spreadsheet rules, so an input matching a spreadsheet rule is classified
spreadsheet exactly when no textual rule matches it. -/
theorem classify_text_shadows_excel (contentType filename contentBytes : Option String)
    (h : isExcelFile contentType filename = true) :
    classify contentType filename contentBytes =
      (if isTextContent contentType filename contentBytes then ContentCategory.text
       else ContentCategory.excel) := by
  unfold classify
  cases ht : isTextContent contentType filename contentBytes
  · simp [ht, h]
  · simp [ht]

theorem classify_text_shadows_excel_witness :
    isExcelFile (some "application/vnd.ms-excel") (some "report.csv") = true
    ∧ classify (some "application/vnd.ms-excel") (some "report.csv") (some "") =
      (if isTextContent (some "application/vnd.ms-excel") (some "report.csv") (some "")
       then ContentCategory.text else ContentCategory.excel) :=
  ⟨by decide, classify_text_shadows_excel _ _ _ (by decide)⟩

/-- Claim C9: classification is a total function of its three nullable
inputs (each helper is a total Lean function, so no exception can
escape), and the binary category is assigned exactly when none of the
textual, spreadsheet or office rules matches. -/
theorem classify_total_default_binary (contentType filename contentBytes : Option String) :
    classify contentType filename contentBytes = ContentCategory.binary ↔
      (isTextContent contentType filename contentBytes = false
        ∧ isExcelFile contentType filename = false
        ∧ isOfficeDocument contentType filename = false) := by
  unfold classify
  cases h1 : isTextContent contentType filename contentBytes <;>
    cases h2 : isExcelFile contentType filename <;>
      cases h3 : isOfficeDocument contentType filename <;>
        simp [h1, h2, h3]

/-! ### Claims about the parsers -/

/-- Claim C7: when every sheet of the workbook has fewer than
`maxRowsPerSheet` rows, every returned sheet carries `truncated = false`,
its full cell matrix, and `displayedRows` equal to its actual total row
count. -/
theorem parseExcel_smallSheets_untruncated
    (xlsxRead : String → Except String (List JsSheet)) (contentBytes : String)
    (filename : Option String) (maxSheets maxRowsPerSheet : Nat) (sheets : List JsSheet)
    (hread : xlsxRead contentBytes = Except.ok sheets)
    (hrows : ∀ ws ∈ sheets, ws.rows.length < maxRowsPerSheet) :
    parseExcelContent xlsxRead contentBytes filename maxSheets maxRowsPerSheet =
      ExcelResult.ok filename
        ((sheets.take maxSheets).map (fun ws =>
          { name := ws.name, rows := ws.rows.length, columns := ws.cols,
            data := ws.rows, truncated := false, displayedRows := ws.rows.length, note := none }))
        sheets.length (sheets.map (fun ws => ws.name))
        (if sheets.length > maxSheets then some (sheetsSummaryNote maxSheets sheets.length)
         else none) := by
  unfold parseExcelContent
  simp only [hread]
  have hmap : (sheets.take maxSheets).map (processSheet maxRowsPerSheet) =
      (sheets.take maxSheets).map (fun ws =>
        ({ name := ws.name, rows := ws.rows.length, columns := ws.cols,
           data := ws.rows, truncated := false, displayedRows := ws.rows.length,
           note := none } : ExcelSheetInfo)) := by
    apply List.map_congr_left
    intro ws hws
    have hlt : ws.rows.length < maxRowsPerSheet := hrows ws (List.take_subset _ _ hws)
    have hmin : min ws.rows.length maxRowsPerSheet = ws.rows.length :=
      Nat.min_eq_left (Nat.le_of_lt hlt)
    simp [processSheet, hmin, List.take_length]
  rw [hmap]

def c7Sheets : List JsSheet :=
  [⟨"S1", 1, [["a"], ["b"]]⟩, ⟨"S2", 1, [["c"]]⟩, ⟨"S3", 2, [["d", "e"]]⟩]

def c7Read : String → Except String (List JsSheet) := fun _ => .ok c7Sheets

theorem parseExcel_smallSheets_untruncated_witness :
    parseExcelContent c7Read "" (some "report.xlsx") 10 1000 =
      ExcelResult.ok (some "report.xlsx")
        ((c7Sheets.take 10).map (fun ws =>
          { name := ws.name, rows := ws.rows.length, columns := ws.cols,
            data := ws.rows, truncated := false, displayedRows := ws.rows.length, note := none }))
        c7Sheets.length (c7Sheets.map (fun ws => ws.name))
        (if c7Sheets.length > 10 then some (sheetsSummaryNote 10 c7Sheets.length) else none) :=
  parseExcel_smallSheets_untruncated c7Read "" (some "report.xlsx") 10 1000 c7Sheets rfl
    (by decide)

/-- Claim C6: for extracted text longer than `maxTextLength` the office
parser returns `truncated = true`, exactly the first `maxTextLength`
characters followed by the `...` marker, and `extractedLength` equal to
the full extracted length; text of at most `maxTextLength` characters is
returned verbatim with `truncated = false`. -/
theorem parseOffice_truncation
    (parseOffice : List Nat → Except String (Option String))
    (contentBytes : String) (filename : Option String) (maxTextLength : Nat) (t : String)
    (h : parseOffice (base64Decode contentBytes) = Except.ok (some t)) :
    (maxTextLength < t.length →
      parseOfficeDocument parseOffice contentBytes filename maxTextLength =
        OfficeResult.ok filename (strTakeChars t maxTextLength ++ "...") t.length true
          (some maxTextLength) (some (officeTruncNote maxTextLength t.length))
          (base64Decode contentBytes).length true)
    ∧ (t.length ≤ maxTextLength →
      parseOfficeDocument parseOffice contentBytes filename maxTextLength =
        OfficeResult.ok filename t t.length false none none
          (base64Decode contentBytes).length (decide (t.length > 0))) := by
  constructor
  · intro hlen
    have hpos : 0 < t.length := Nat.lt_of_le_of_lt (Nat.zero_le _) hlen
    simp [parseOfficeDocument, h, hlen, hpos]
  · intro hlen
    have hnlt : ¬ (maxTextLength < t.length) := Nat.not_lt.mpr hlen
    simp [parseOfficeDocument, h, hnlt]

theorem parseOffice_truncation_witness :
    parseOfficeDocument (fun _ => Except.ok (some "abcdef")) "" (some "contract.pdf") 3 =
      OfficeResult.ok (some "contract.pdf") (strTakeChars "abcdef" 3 ++ "...") "abcdef".length
        true (some 3) (some (officeTruncNote 3 "abcdef".length)) (base64Decode "").length true
    ∧ parseOfficeDocument (fun _ => Except.ok (some "ab")) "" (some "contract.pdf") 3 =
      OfficeResult.ok (some "contract.pdf") "ab" "ab".length false none none
        (base64Decode "").length (decide ("ab".length > 0)) :=
  ⟨(parseOffice_truncation (fun _ => Except.ok (some "abcdef")) "" (some "contract.pdf") 3
      "abcdef" rfl).1 (by decide),
   (parseOffice_truncation (fun _ => Except.ok (some "ab")) "" (some "contract.pdf") 3
      "ab" rfl).2 (by decide)⟩

/-- Claim C8: when the underlying parse fails, both parsers return the
typed error shape — `excel_error` / `office_error` with a non-empty
error string and an explanatory note — instead of propagating the
failure (the model's return types are plain results, mirroring the
catch-all in the source that converts every throw into this shape). -/
theorem parsers_fail_to_typed_errors
    (xlsxRead : String → Except String (List JsSheet))
    (parseOffice : List Nat → Except String (Option String))
    (cbE cbO : String) (fnE fnO : Option String) (maxSheets maxRowsPerSheet maxTextLength : Nat)
    (msgE msgO : String)
    (hE : xlsxRead cbE = Except.error msgE)
    (hO : parseOffice (base64Decode cbO) = Except.error msgO) :
    parseExcelContent xlsxRead cbE fnE maxSheets maxRowsPerSheet =
        ExcelResult.error ("Failed to parse Excel file: " ++ msgE)
          "File may be corrupted or in an unsupported Excel format"
      ∧ parseOfficeDocument parseOffice cbO fnO maxTextLength =
        OfficeResult.error ("Failed to parse office document: " ++ msgO)
          "File may be corrupted, password-protected, or in an unsupported format"
      ∧ ("Failed to parse Excel file: " ++ msgE) ≠ ""
      ∧ ("Failed to parse office document: " ++ msgO) ≠ "" := by
  refine ⟨?_, ?_, ?_, ?_⟩
  · simp [parseExcelContent, hE]
  · simp [parseOfficeDocument, hO]
  · exact prefixed_ne_empty _ _ (by decide)
  · exact prefixed_ne_empty _ _ (by decide)

theorem parsers_fail_to_typed_errors_witness :
    parseExcelContent (fun _ => Except.error "bad zip") "" none 10 1000 =
        ExcelResult.error ("Failed to parse Excel file: " ++ "bad zip")
          "File may be corrupted or in an unsupported Excel format"
      ∧ parseOfficeDocument (fun _ => Except.error "encrypted") "" none 50000 =
        OfficeResult.error ("Failed to parse office document: " ++ "encrypted")
          "File may be corrupted, password-protected, or in an unsupported format"
      ∧ ("Failed to parse Excel file: " ++ "bad zip") ≠ ""
      ∧ ("Failed to parse office document: " ++ "encrypted") ≠ "" :=
  parsers_fail_to_typed_errors (fun _ => Except.error "bad zip")
    (fun _ => Except.error "encrypted") "" "" none none 10 1000 50000 "bad zip" "encrypted"
    rfl rfl

/-! ### Claims about the overflow manager -/

/-- Claim C3, counterexample: `shouldSaveToFile` measures a Base64
string by the UTF-8 byte length of the encoded text, not by its decoded
length. A string of 1,048,580 `A` characters decodes to 786,435 bytes —
within the 1,048,576-byte budget — yet `handleLargeContent` spills it to
a file instead of returning it inline. -/
theorem handleLargeContent_base64_measures_encoded_text :
    (base64Decode (String.mk (List.replicate 1048580 'A'))).length ≤ 1048576
    ∧ (handleLargeContent [] "/tmp" 0 "r"
        (JsContent.str (String.mk (List.replicate 1048580 'A'))) none 1048576 "base64"
        none false).2.savedToFile = true := by
  constructor
  · have h4 : (1048580 : Nat) = 4 * 262145 := by norm_num
    rw [h4, base64Decode_replicateA_length]
    norm_num
  · have henc : (utf8Encode (String.mk (List.replicate 1048580 'A'))).length = 1048580 :=
      utf8Encode_replicateA_length _
    have hy : jsByteLength (JsContent.str (String.mk (List.replicate 1048580 'A')))
        > 1048576 := by
      simp only [jsByteLength, henc]
      norm_num
    have hs : shouldSaveToFile (JsContent.str (String.mk (List.replicate 1048580 'A')))
        1048576 = true := by
      simp only [shouldSaveToFile]
      exact decide_eq_true hy
    simp only [handleLargeContent, hs, Bool.false_or, if_true]
    rfl

/-- Claim C3 as amended: the spill decision compares the UTF-8 byte
length of the content string as passed — for Base64 input, the length
of the encoded text — against `maxSize`: at most `maxSize` is returned
inline unchanged, above `maxSize` the content is written to a uniquely
named file and the file record returned. -/
theorem handleLargeContent_inline_or_spill_by_utf8_length
    (fs : FileSystem) (workDir : String) (timestamp : Nat) (random : String)
    (s1 s2 : String) (filename : Option String) (encoding : String)
    (mimeType : Option String) (maxSize : Nat)
    (h1 : (utf8Encode s1).length ≤ maxSize) (h2 : maxSize < (utf8Encode s2).length) :
    handleLargeContent fs workDir timestamp random (.str s1) filename maxSize encoding
        mimeType false =
      (fs, .inline (.str s1) (utf8Encode s1).length encoding)
    ∧ (handleLargeContent fs workDir timestamp random (.str s2) filename maxSize encoding
        mimeType false).2 =
      .spilled (saveFileToDisc fs workDir timestamp random (.str s2) filename encoding
        mimeType none).info := by
  constructor
  · have hs : shouldSaveToFile (JsContent.str s1) maxSize = false := by
      simp only [shouldSaveToFile, jsByteLength, decide_eq_true_eq,
        decide_eq_false_iff_not]
      omega
    simp [handleLargeContent, hs, jsByteLength]
  · have hs : shouldSaveToFile (JsContent.str s2) maxSize = true := by
      simp only [shouldSaveToFile, jsByteLength, decide_eq_true_eq,
        decide_eq_false_iff_not]
      omega
    simp [handleLargeContent, hs]

theorem handleLargeContent_inline_or_spill_by_utf8_length_witness :
    handleLargeContent [] "/tmp" 0 "r" (.str "ab") none 2 "base64" none false =
      ([], .inline (.str "ab") (utf8Encode "ab").length "base64")
    ∧ (handleLargeContent [] "/tmp" 0 "r" (.str "abc") none 2 "base64" none false).2 =
      .spilled (saveFileToDisc [] "/tmp" 0 "r" (.str "abc") none "base64" none none).info :=
  handleLargeContent_inline_or_spill_by_utf8_length [] "/tmp" 0 "r" "ab" "abc" none
    "base64" none 2 (by decide) (by decide)

/-- Claim C4: a payload whose computed size is exactly the default
`maxSize` of 1,048,576 bytes is returned inline unchanged (the
`savedToFile: false` shape), and a payload one byte larger is spilled —
the comparison in `shouldSaveToFile` is strict. -/
theorem handleLargeContent_boundary
    (fs : FileSystem) (workDir : String) (timestamp : Nat) (random : String)
    (c1 c2 : JsContent) (filename : Option String) (encoding : String)
    (mimeType : Option String)
    (h1 : jsByteLength c1 = 1048576) (h2 : jsByteLength c2 = 1048577) :
    handleLargeContent fs workDir timestamp random c1 filename 1048576 encoding mimeType
        false =
      (fs, LargeContentResult.inline c1 1048576 encoding)
    ∧ (handleLargeContent fs workDir timestamp random c2 filename 1048576 encoding mimeType
        false).2 =
      LargeContentResult.spilled
        (saveFileToDisc fs workDir timestamp random c2 filename encoding mimeType none).info := by
  constructor
  · have hn : ¬ (jsByteLength c1 > 1048576) := by omega
    simp [handleLargeContent, shouldSaveToFile, hn, h1]
  · have hy : jsByteLength c2 > 1048576 := by omega
    simp [handleLargeContent, shouldSaveToFile, hy]

theorem handleLargeContent_boundary_witness :
    handleLargeContent [] "/tmp" 0 "r" (JsContent.buf (List.replicate 1048576 0)) none
        1048576 "base64" none false =
      ([], LargeContentResult.inline (JsContent.buf (List.replicate 1048576 0)) 1048576
        "base64")
    ∧ (handleLargeContent [] "/tmp" 0 "r" (JsContent.buf (List.replicate 1048577 0)) none
        1048576 "base64" none false).2 =
      LargeContentResult.spilled
        (saveFileToDisc [] "/tmp" 0 "r" (JsContent.buf (List.replicate 1048577 0)) none
          "base64" none none).info :=
  handleLargeContent_boundary [] "/tmp" 0 "r" _ _ none "base64" none
    (by rw [jsByteLength_buf, List.length_replicate])
    (by rw [jsByteLength_buf, List.length_replicate])

/-- Claim C5: whenever the overflow manager spills, the returned record's
`size` equals the byte length of the file written, and reading the file
back from the filesystem yields exactly the written buffer (the Base64
decoding of a `'base64'` string, the UTF-8 bytes of a text string, the
buffer itself otherwise — `encodeBuffer`). -/
theorem handleLargeContent_spill_size_roundtrip
    (fs : FileSystem) (workDir : String) (timestamp : Nat) (random : String)
    (content : JsContent) (filename : Option String) (maxSize : Nat) (encoding : String)
    (mimeType : Option String)
    (h : shouldSaveToFile content maxSize = true) :
    ∃ fs2 info,
      handleLargeContent fs workDir timestamp random content filename maxSize encoding
          mimeType false = (fs2, .spilled info)
        ∧ fsRead fs2 info.filePath = some (encodeBuffer content encoding)
        ∧ info.size = (encodeBuffer content encoding).length := by
  refine ⟨(saveFileToDisc fs workDir timestamp random content filename encoding mimeType
      none).fs,
    (saveFileToDisc fs workDir timestamp random content filename encoding mimeType
      none).info, ?_, ?_, ?_⟩
  · simp [handleLargeContent, h]
  · simp [saveFileToDisc, fsWrite, fsRead, List.find?]
  · simp [saveFileToDisc, fsWrite, fsRead, List.find?]

theorem handleLargeContent_spill_size_roundtrip_witness :
    shouldSaveToFile (JsContent.buf [1, 2, 3]) 2 = true
    ∧ ∃ fs2 info,
      handleLargeContent [] "/tmp" 0 "r" (JsContent.buf [1, 2, 3]) (some "a.bin") 2
          "base64" none false = (fs2, .spilled info)
        ∧ fsRead fs2 info.filePath = some (encodeBuffer (JsContent.buf [1, 2, 3]) "base64")
        ∧ info.size = (encodeBuffer (JsContent.buf [1, 2, 3]) "base64").length :=
  ⟨by decide,
   handleLargeContent_spill_size_roundtrip [] "/tmp" 0 "r" (JsContent.buf [1, 2, 3])
     (some "a.bin") 2 "base64" none (by decide)⟩

/-! ### Claims about the orchestrator's size guard -/

theorem finalize_inline_of_no_contentBytes (inp : FinalizeInput)
    (h : inp.hasContentBytes = false) :
    finalizeAttachmentResponse inp = .inline inp.responseText := by
  unfold finalizeAttachmentResponse
  rw [h]
  simp

/-- Claim C1, counterexample: the 1 MiB guard in `downloadAttachmentTool`
fires only when the envelope carries raw `contentBytes`. An envelope
whose serialisation exceeds the limit but has no `contentBytes` field
(e.g. inline-decoded text, or an item attachment) is returned inline,
oversized. -/
theorem downloadAttachment_oversized_without_contentBytes_inline :
    (String.mk (List.replicate 1048577 'A')).length > maxMcpResponseSize
    ∧ finalizeAttachmentResponse
        { responseText := String.mk (List.replicate 1048577 'A'), hasContentBytes := false,
          parsedContentJsonLen := none, saveOutcome := Except.error "unused" } =
      FinalizedResponse.inline (String.mk (List.replicate 1048577 'A')) := by
  constructor
  · rw [length_mk, List.length_replicate]
    norm_num [maxMcpResponseSize]
  · exact finalize_inline_of_no_contentBytes _ rfl

/-- Claim C1 as amended: when the serialised envelope exceeds the 1 MiB
limit AND the envelope carries raw `contentBytes`, the envelope is never
returned inline — it is replaced by the file-reference response or, when
the save fails, by the truncated summary. -/
theorem finalize_guard_with_contentBytes
    (inp : FinalizeInput)
    (hlen : inp.responseText.length > maxMcpResponseSize)
    (hcb : inp.hasContentBytes = true) :
    (∃ info dropped, finalizeAttachmentResponse inp = .savedToFile info dropped)
    ∨ (∃ e, finalizeAttachmentResponse inp = .truncatedSummary inp.responseText.length e) := by
  unfold finalizeAttachmentResponse
  rw [hcb]
  simp only [Bool.and_true, decide_eq_true_eq, hlen, if_true]
  cases hso : inp.saveOutcome with
  | ok fi => exact Or.inl ⟨fi, _, rfl⟩
  | error e => exact Or.inr ⟨e, rfl⟩

def sampleFileInfo : FileInfo :=
  ⟨true, "/tmp/outlook_file_0_r", "outlook_file_0_r", none, 3, 3, none, "base64"⟩

theorem finalize_guard_with_contentBytes_witness :
    (∃ info dropped, finalizeAttachmentResponse
        { responseText := String.mk (List.replicate 1048577 'A'), hasContentBytes := true,
          parsedContentJsonLen := none, saveOutcome := Except.ok sampleFileInfo } =
      FinalizedResponse.savedToFile info dropped)
    ∨ (∃ e, finalizeAttachmentResponse
        { responseText := String.mk (List.replicate 1048577 'A'), hasContentBytes := true,
          parsedContentJsonLen := none, saveOutcome := Except.ok sampleFileInfo } =
      FinalizedResponse.truncatedSummary
        (String.mk (List.replicate 1048577 'A')).length e) :=
  finalize_guard_with_contentBytes _
    (by rw [length_mk, List.length_replicate]; norm_num [maxMcpResponseSize]) rfl

/-! ### Claim about decodeAttachmentContent's large-text branch -/

/-- Claim C10: a text-classified attachment whose decoded size exceeds
the default 1 MiB `maxTextSize` is not decoded into the response:
`decodeAttachmentContent` returns `type: 'text'` with the
too-large-to-display placeholder as content, the original Base64
preserved in `contentBytes`, encoding `base64_preserved`, and the true
decoded byte size. -/
theorem decodeAttachment_largeText_placeholder
    (xlsxRead : String → Except String (List JsSheet))
    (parseOffice : List Nat → Except String (Option String))
    (contentBytes : String) (contentType filename : Option String)
    (htext : isTextContent contentType filename (some contentBytes) = true)
    (hsize : (base64Decode contentBytes).length > 1048576) :
    decodeAttachmentContent xlsxRead parseOffice contentBytes contentType filename 1048576 =
      { type := "text"
        content := .str ("[Text file too large to display: "
          ++ formatFileSize (base64Decode contentBytes).length ++ "]")
        contentBytes := some contentBytes
        size := some (base64Decode contentBytes).length
        encoding := "base64_preserved"
        note := some "File exceeds display limit, use contentBytes for full content"
        error := none } := by
  have hnle : ¬ ((base64Decode contentBytes).length ≤ 1048576) := Nat.not_le.mpr hsize
  simp [decodeAttachmentContent, htext, hnle]

theorem decodeAttachment_largeText_placeholder_witness :
    decodeAttachmentContent (fun _ => Except.error "unused") (fun _ => Except.error "unused")
        (String.mk (List.replicate 1398104 'A')) (some "text/plain") none 1048576 =
      { type := "text"
        content := DecodedPayload.str ("[Text file too large to display: "
          ++ formatFileSize 1048578 ++ "]")
        contentBytes := some (String.mk (List.replicate 1398104 'A'))
        size := some 1048578
        encoding := "base64_preserved"
        note := some "File exceeds display limit, use contentBytes for full content"
        error := none } := by
  have hlen : (base64Decode (String.mk (List.replicate 1398104 'A'))).length = 1048578 := by
    have h4 : (1398104 : Nat) = 4 * 349526 := by norm_num
    rw [h4, base64Decode_replicateA_length]
  have hby : ("text/plain" != ""
      && textTypes.any (fun t => strStartsWith (jsToLower "text/plain") t)) = true := by
    decide
  have htext : isTextContent (some "text/plain") none
      (some (String.mk (List.replicate 1398104 'A'))) = true := by
    unfold isTextContent
    simp only [hby, if_true]
  have h := decodeAttachment_largeText_placeholder (fun _ => Except.error "unused")
    (fun _ => Except.error "unused") (String.mk (List.replicate 1398104 'A'))
    (some "text/plain") none htext (by rw [hlen]; norm_num)
  rw [hlen] at h
  exact h

end OutlookMcp
